import Mathlib

/-!
Verification of the habitability scoring core of the lifesearch project
(`src/lifesearch/lifesearch_main.py`).

Modelling conventions used throughout this file:
* Python floats are modelled as exact rationals (`ℚ`) for the purely
  piecewise/threshold calculators, and as real numbers (`ℝ`) for the
  calculators that use transcendental operations (`math.exp`, `math.sqrt`,
  fractional powers).  Neither `ℚ` nor `ℝ` contains a NaN value, so the
  "never NaN" part of the spec is expressed by the type itself.
* A parameter that is missing, NaN, or an unparseable string is modelled as
  `none : Option _`; a parameter that parses to a float `x` is `some x`.
  This is the normalisation that `to_float_or_none` and the guarded
  `pd.isna` + `try: float(...)` conversions perform at most consumers.  Two
  places in the source do NOT normalise and can raise on a string value the
  parameter record permits: the unguarded density conversion of
  `calculate_sephi` (line 179, uncaught `ValueError`) and the bare
  comparisons of `classify_planet` (lines 110/118/130, `TypeError`).  Those
  are modelled separately on raw record values (`PyVal`), with
  `Except Unit _` capturing the raised exception, by `calculate_sephi_raw`
  and `classify_planet_raw`.
* Python dictionaries of weights (`weights.get(key, 0.0)`) are modelled as
  functions `String → Option ℚ` read through `wget`.
* `round(x, 2)` is modelled by `round2` below (round to nearest with the
  half-case resolved upward; Python uses round-half-to-even, which agrees
  with this model everywhere except exact two-decimal ties, none of which
  are relevant to the claims proved here).
-/

/-- Model of `get_color_for_percentage` (lifesearch_main.py lines 9-47).
`none` models a `None`/NaN argument. -/
def get_color_for_percentage (value : Option ℚ) (high_is_good : Bool) : String :=
  match value with
  | none => "#757575"
  | some v =>
    if high_is_good then
      if 80 ≤ v then "#4CAF50"
      else if 60 ≤ v then "#8BC34A"
      else if 40 ≤ v then "#FFC107"
      else if 20 ≤ v then "#FF9800"
      else "#F44336"
    else
      if v ≤ 10 then "#4CAF50"
      else if v ≤ 25 then "#8BC34A"
      else if v ≤ 50 then "#FFC107"
      else if v ≤ 75 then "#FF9800"
      else "#F44336"

/-- Model of Python `round(x, 2)` (see the file header for the tie caveat). -/
def round2 (x : ℚ) : ℚ := (round (100 * x) : ℤ) / 100

/-- Model of `weights.get(key, 0.0)` on a Python dict. -/
def wget (w : String → Option ℚ) (k : String) : ℚ := (w k).getD 0

/-- Is the first list a prefix of the second (on characters)? -/
def strStarts : List Char → List Char → Bool
  | [], _ => true
  | _ :: _, [] => false
  | a :: as, b :: bs => a == b && strStarts as bs

/-- Does the second list occur as a contiguous sublist of the first? -/
def strHas (needle : List Char) : List Char → Bool
  | [] => strStarts needle []
  | a :: as => strStarts needle (a :: as) || strHas needle as

/-- Model of Python `sub in hay` on strings (substring containment). -/
def containsSub (hay sub : String) : Bool := strHas sub.data hay.data

/-- The flat key-value parameter record consumed by the scoring core
("ParameterRecord" of the spec): every numeric field is an optional exact
rational, string-valued fields are plain strings (with `""` standing for the
dict default used by the source). -/
structure PlanetRecord where
  pl_rade : Option ℚ
  pl_masse : Option ℚ
  pl_dens : Option ℚ
  pl_eqt : Option ℚ
  pl_orbsmax : Option ℚ
  st_lum : Option ℚ
  st_age : Option ℚ
  st_met : Option ℚ
  pl_orbeccen : Option ℚ
  st_spectype : String
  classification : String

/-- Model of `calculate_esi_score` (lifesearch_main.py lines 264-306).
The planet record is read only for logging in the source, so the model
ignores it; the three slider weights are the only numeric inputs. -/
def calculate_esi_score (_pd : PlanetRecord) (weights : String → Option ℚ) :
    ℚ × String :=
  let esiComponents : List ℚ :=
    [wget weights "Size", wget weights "Density", wget weights "Habitable Zone"]
  let numParams : ℕ := esiComponents.length
  if esiComponents = [] ∨ numParams = 0 then
    (0, get_color_for_percentage (some 0) true)
  else
    let finalEsi := (esiComponents.sum / (numParams : ℚ)) * 100
    (round2 finalEsi, get_color_for_percentage (some finalEsi) true)

/-- Model of `calculate_sph_score` (lifesearch_main.py lines 308-346).
The `weights` argument is unused by the source ("kept for API consistency"). -/
def calculate_sph_score (pd : PlanetRecord) (_weights : String → Option ℚ) :
    ℚ × String :=
  match pd.pl_eqt with
  | none => (0, get_color_for_percentage (some 0) true)
  | some t =>
    let score : ℚ :=
      if 273.15 ≤ t ∧ t ≤ 323.15 then
        let midOptimal : ℚ := (273.15 + 323.15) / 2
        70 + (1 - |t - midOptimal| / (midOptimal - 273.15)) * 30
      else if (250 ≤ t ∧ t < 273.15) ∨ (323.15 < t ∧ t ≤ 373.15) then 40
      else 10
    let finalSph := max 0 (min score 100)
    (round2 finalSph, get_color_for_percentage (some finalSph) true)

/-- Model of `calculate_phi_score` (lifesearch_main.py lines 348-385).
The planet record is read only for logging in the source. -/
def calculate_phi_score (_pd : PlanetRecord) (phi_weights : String → Option ℚ) :
    ℚ × String :=
  let phiComponents : List ℚ :=
    [wget phi_weights "Solid Surface", wget phi_weights "Stable Energy",
     wget phi_weights "Life Compounds", wget phi_weights "Stable Orbit"]
  if phiComponents = [] then
    (0, get_color_for_percentage (some 0) true)
  else
    let finalPhi := (phiComponents.sum / (phiComponents.length : ℚ)) * 400
    let finalPhi := max 0 (min finalPhi 100)
    (round2 finalPhi, get_color_for_percentage (some finalPhi) true)

-- ### round2 helper lemmas

theorem round2_mono {x y : ℚ} (h : x ≤ y) : round2 x ≤ round2 y := by
  unfold round2
  have : round (100 * x) ≤ round (100 * y) := by
    rw [round_eq, round_eq]
    exact Int.floor_mono (by linarith)
  have h100 : (0:ℚ) < 100 := by norm_num
  rw [div_le_div_iff_of_pos_right h100]
  exact_mod_cast this

theorem round2_intCast (n : ℤ) : round2 ((n : ℚ)) = n := by
  unfold round2
  rw [show (100 : ℚ) * n = ((100 * n : ℤ) : ℚ) by push_cast; ring]
  rw [round_intCast]
  push_cast
  rw [mul_comm]
  exact mul_div_cancel_right₀ _ (by norm_num)

theorem round2_nonneg {x : ℚ} (h : 0 ≤ x) : 0 ≤ round2 x := by
  have := round2_mono h
  rwa [show (0:ℚ) = ((0:ℤ):ℚ) by norm_num, round2_intCast] at this

theorem round2_le_100 {x : ℚ} (h : x ≤ 100) : round2 x ≤ 100 := by
  have := round2_mono h
  rwa [show (100:ℚ) = ((100:ℤ):ℚ) by norm_num, round2_intCast] at this

-- ### Detailed habitability scorers (lifesearch_main.py lines 476-606)

/-- The habitable-zone boundary tuple argument `hz_data_tuple`:
`none` models passing `None`, `some (ohz_in, chz_in, chz_out, ohz_out, teqa)`
models the 5-tuple built by `process_planet_data` (whose members may
themselves be missing). -/
def HZInput : Type :=
  Option (Option ℚ × Option ℚ × Option ℚ × Option ℚ × Option ℚ)

/-- Size sub-score (lines 517-526); `cls` is the classification string. -/
def detSizeScore (radius : Option ℚ) (cls : String) : ℚ :=
  match radius with
  | none => 0
  | some r =>
    if containsSub cls "Terran" ∧ 0.8 ≤ r ∧ r ≤ 1.5 then 100
    else if ((containsSub cls "Mini-Terran" ∨ containsSub cls "Subterran") ∧
               0.5 ≤ r ∧ r < 0.8) ∨
            (containsSub cls "Terran" ∧ 1.5 < r ∧ r ≤ 2.0) ∨
            (containsSub cls "Superterran" ∧ r ≤ 2.5) then 90
    else if (containsSub cls "Superterran" ∧ 2.5 < r ∧ r ≤ 4.5) ∨
            (containsSub cls "Neptunian" ∧ r ≤ 5.0) then 70
    else 30

/-- Density sub-score (lines 528-537). -/
def detDensityScore (density : Option ℚ) (cls : String) : ℚ :=
  match density with
  | none => 0
  | some d =>
    if containsSub cls "Terran" ∧ 4.5 ≤ d ∧ d ≤ 6.5 then 100
    else if ((containsSub cls "Terran" ∨ containsSub cls "Superterran") ∧
               3.0 ≤ d ∧ d < 4.5) ∨
            ((containsSub cls "Terran" ∨ containsSub cls "Superterran") ∧
               6.5 < d ∧ d ≤ 8.0) then 90
    else if (containsSub cls "Mini-Terran" ∨ containsSub cls "Subterran" ∨
              containsSub cls "Superterran") ∧ (d < 3.0 ∨ d > 8.0) then 70
    else 50

/-- Mass sub-score (lines 539-548). -/
def detMassScore (mass : Option ℚ) (cls : String) : ℚ :=
  match mass with
  | none => 0
  | some m =>
    if containsSub cls "Terran" ∧ 0.8 ≤ m ∧ m ≤ 1.5 then 100
    else if ((containsSub cls "Mini-Terran" ∨ containsSub cls "Subterran") ∧
               0.1 ≤ m ∧ m < 0.8) ∨
            (containsSub cls "Terran" ∧ 1.5 < m ∧ m ≤ 2.0) ∨
            (containsSub cls "Superterran" ∧ m ≤ 5.0) then 90
    else if (containsSub cls "Superterran" ∧ 5.0 < m ∧ m ≤ 10.0) ∨
            (containsSub cls "Neptunian" ∧ m ≤ 20.0) then 70
    else 30

/-- Shared Atmosphere-Potential / Liquid-Water-Potential sub-score
(lines 550-556; the source assigns the same value to both keys). -/
def detAtmWaterScore (tempEq : Option ℚ) : ℚ :=
  match tempEq with
  | none => 0
  | some t =>
    if 273.15 < t ∧ t ≤ 373.15 then 90
    else if (200 ≤ t ∧ t ≤ 273.15) ∨ (373.15 < t ∧ t ≤ 450) then 50
    else 20

/-- Habitable-Zone-Position sub-score (lines 558-573).  The luminosity
fallback branch exponentiates the record's log-luminosity (`10**st_lum`),
which forces this one scorer into `ℝ`. -/
noncomputable def detHzScore (hz : HZInput) (orbitDist stLumLog : Option ℚ) : ℚ :=
  match hz, orbitDist, stLumLog with
  | some (ohzIn, chzIn, chzOut, ohzOut, _), some od, _ =>
    match ohzIn, chzIn, chzOut, ohzOut with
    | some oi, some ci, some co, some oo =>
      if ci ≤ od ∧ od ≤ co then 95
      else if (oi ≤ od ∧ od < ci) ∨ (co < od ∧ od ≤ oo) then 65
      else 20
    | _, _, _, _ => 15
  | none, some od, some lg =>
    let lumLinear : ℝ := (10 : ℝ) ^ ((lg : ℝ))
    let hzInCalc := Real.sqrt (lumLinear / 1.1)
    let hzOutCalc := Real.sqrt (lumLinear / 0.53)
    if hzInCalc ≤ (od : ℝ) ∧ (od : ℝ) ≤ hzOutCalc then 80 else 25
  | _, _, _ => 10

/-- Host-Star-Type sub-score (lines 575-582); `""` models the dict default. -/
def detStarScore (spectype : String) : ℚ :=
  if spectype ≠ "" then
    if spectype.startsWith "G" then 95
    else if spectype.startsWith "K" then 85
    else if spectype.startsWith "F" then 70
    else if spectype.startsWith "M" then 60
    else 30
  else 0

/-- System-Age sub-score (lines 584-589). -/
def detAgeScore (stAgeGyr : Option ℚ) : ℚ :=
  match stAgeGyr with
  | none => 0
  | some a =>
    if 1.0 ≤ a ∧ a ≤ 8.0 then 90
    else if (0.5 ≤ a ∧ a < 1.0) ∨ (8.0 < a ∧ a ≤ 10.0) then 60
    else 30

/-- Star-Metallicity sub-score (lines 591-596). -/
def detMetScore (stMetDex : Option ℚ) : ℚ :=
  match stMetDex with
  | none => 0
  | some m =>
    if -0.5 ≤ m ∧ m ≤ 0.5 then 90
    else if (-1.0 ≤ m ∧ m < -0.5) ∨ (0.5 < m ∧ m ≤ 1.0) then 60
    else 30

/-- Orbital-Eccentricity sub-score (lines 598-604). -/
def detEccScore (ecc : Option ℚ) : ℚ :=
  match ecc with
  | none => 0
  | some e =>
    if e ≤ 0.1 then 95
    else if e ≤ 0.3 then 70
    else if e ≤ 0.5 then 40
    else 10

/-- The dictionary of detailed scores returned by
`calculate_detailed_habitability_scores`; each field models one key of the
returned `scores` dict. -/
structure DetailedScores where
  size : ℚ × String
  density : ℚ × String
  mass : ℚ × String
  atmosphere : ℚ × String
  water : ℚ × String
  habitableZone : ℚ × String
  hostStar : ℚ × String
  systemAge : ℚ × String
  metallicity : ℚ × String
  eccentricity : ℚ × String

/-- Model of `calculate_detailed_habitability_scores` (lines 476-606).
`weights_config` is unused by the source ("kept for API consistency"). -/
noncomputable def calculate_detailed_habitability_scores (pd : PlanetRecord)
    (hz_data_tuple : HZInput) (_weights_config : String → Option ℚ) :
    DetailedScores :=
  let sizeV := detSizeScore pd.pl_rade pd.classification
  let densV := detDensityScore pd.pl_dens pd.classification
  let massV := detMassScore pd.pl_masse pd.classification
  let atmV := detAtmWaterScore pd.pl_eqt
  let hzV := detHzScore hz_data_tuple pd.pl_orbsmax pd.st_lum
  let starV := detStarScore pd.st_spectype
  let ageV := detAgeScore pd.st_age
  let metV := detMetScore pd.st_met
  let eccV := detEccScore pd.pl_orbeccen
  { size := (sizeV, get_color_for_percentage (some sizeV) true)
    density := (densV, get_color_for_percentage (some densV) true)
    mass := (massV, get_color_for_percentage (some massV) true)
    atmosphere := (atmV, get_color_for_percentage (some atmV) true)
    water := (atmV, get_color_for_percentage (some atmV) true)
    habitableZone := (hzV, get_color_for_percentage (some hzV) true)
    hostStar := (starV, get_color_for_percentage (some starV) true)
    systemAge := (ageV, get_color_for_percentage (some ageV) true)
    metallicity := (metV, get_color_for_percentage (some metV) true)
    eccentricity := (eccV, get_color_for_percentage (some eccV) false) }

-- ### Classifier (lifesearch_main.py lines 93-142)

/-- The mass-estimation step of `classify_planet` (lines 110-116): when the
mass is missing but the radius is present and positive, estimate the mass
from the radius with the simplified power laws `r^(1/0.3)` (rocky) /
`r^(1/0.5)` (gaseous). -/
noncomputable def estimateMass (mass radius : Option ℝ) : Option ℝ :=
  match mass, radius with
  | none, some r =>
    if 0 < r then
      some (if r < 1.5 then (r / 1.0) ^ ((1 : ℝ) / 0.3)
            else (r / 1.0) ^ ((1 : ℝ) / 0.5))
    else none
  | m, _ => m

/-- The mass-class half of `classify_planet` (lines 118-127). -/
noncomputable def massClassStr (mass radius : Option ℝ) : String :=
  match estimateMass mass radius with
  | none => "Unknown Mass Class"
  | some m =>
    if m ≤ 0 then "Unknown Mass Class"
    else if m < 0.00001 then "Asteroidan"
    else if m < 0.1 then "Mercurian"
    else if m < 0.5 then "Subterran"
    else if m < 2 then "Terran"
    else if m < 10 then "Superterran"
    else if m < 50 then "Neptunian"
    else if m < 5000 then "Jovian"
    else "Unknown Mass Class"

/-- The temperature-class half of `classify_planet` (lines 130-137). -/
noncomputable def tempClassStr (temp : Option ℝ) : String :=
  match temp with
  | none => "Unknown Temperature Class"
  | some t =>
    if t < 0 then "Unknown Temperature Class"
    else if t < 170 then "Hypopsychroplanet (Very Cold)"
    else if t < 220 then "Psychroplanet (Cold)"
    else if t < 273 then "Mesoplanet (Temperate 1)"
    else if t < 323 then "Mesoplanet (Temperate 2 - Optimal for Earth Life)"
    else if t < 373 then "Thermoplanet (Warm)"
    else "Hyperthermoplanet (Hot)"

/-- Model of `classify_planet` (lines 93-142): a `None`/NaN input is `none`. -/
noncomputable def classify_planet (mass radius temp : Option ℝ) : String :=
  massClassStr mass radius ++ " | " ++ tempClassStr temp

-- ### Raw record values and the error paths on string inputs

/-- A raw value as the parameter record permits it: Python `None` or NaN
(`pnone`), a numeric value (`pnum`), or a string (`pstr`).  `pd.isna` is
`True` exactly on `pnone` and `False` on `pnum`/`pstr`. -/
inductive PyVal where
  | pnone : PyVal
  | pnum (x : ℝ) : PyVal
  | pstr (s : String) : PyVal

/-- Embed an already-normalised optional float as a raw value. -/
def toPyVal : Option ℝ → PyVal
  | none => PyVal.pnone
  | some x => PyVal.pnum x

/-- Are all characters decimal digits? -/
def allDigits : List Char → Bool
  | [] => true
  | c :: cs => c.isDigit && allDigits cs

/-- Value of a digit run, most significant first. -/
def digitsToNat : List Char → ℕ → ℕ
  | [], acc => acc
  | c :: cs, acc => digitsToNat cs (acc * 10 + (c.toNat - 48))

/-- Modelled from the spec: a simplified model of the builtin `float(str)`
conversion ("must parse to float"): an optional sign, then a digit run with
an optional fractional part, at least one digit in total; every other string
fails (`none` models the raised `ValueError`).  Python additionally accepts
exponents, `inf`/`nan` spellings, underscores and surrounding whitespace,
none of which matter to the claims proved here; on the grammar both accept,
the values agree. -/
def pyFloatOfStr? (s : String) : Option ℚ :=
  let signBody : ℚ × List Char :=
    match s.data with
    | '-' :: rest => (-1, rest)
    | '+' :: rest => (1, rest)
    | rest => (1, rest)
  let sign := signBody.1
  let cs := signBody.2
  let intPart := cs.takeWhile (fun c => c != '.')
  let dotRest := cs.dropWhile (fun c => c != '.')
  match dotRest with
  | [] =>
    if intPart.isEmpty || !(allDigits intPart) then none
    else some (sign * (digitsToNat intPart 0 : ℚ))
  | _ :: frac =>
    if frac.contains '.' then none
    else if (intPart.isEmpty && frac.isEmpty) || !(allDigits intPart) ||
        !(allDigits frac) then none
    else some (sign * ((digitsToNat intPart 0 : ℚ) +
      (digitsToNat frac 0 : ℚ) / 10 ^ frac.length))

/-- The mass-class computation of `classify_planet` on raw inputs
(lines 110-127).  A string mass reaches the bare `mass_earth <= 0` at line
118 (`pd.isna(str)` is `False`) and raises `TypeError`; with the mass absent,
a string radius reaches `radius_earth > 0` at line 110 and raises likewise.
When the mass is present the radius is never compared (line 110
short-circuits on `pd.isna(mass_earth)`), so it is irrelevant there. -/
noncomputable def classifyMassRaw : PyVal → PyVal → Except Unit String
  | .pstr _, _ => .error ()
  | .pnone, .pstr _ => .error ()
  | .pnone, .pnum r => .ok (massClassStr none (some r))
  | .pnone, .pnone => .ok (massClassStr none none)
  | .pnum x, _ => .ok (massClassStr (some x) none)

/-- The temperature-class computation of `classify_planet` on raw inputs
(lines 130-137): a string temperature reaches the bare `temp_k < 0` and
raises `TypeError`. -/
noncomputable def classifyTempRaw : PyVal → Except Unit String
  | .pstr _ => .error ()
  | .pnone => .ok (tempClassStr none)
  | .pnum t => .ok (tempClassStr (some t))

/-- Model of `classify_planet` (lines 93-142) on raw record values, with
`Except.error ()` modelling the uncaught `TypeError` raised on string
inputs.  The mass-class block runs first in the source, so its error is
reported first. -/
noncomputable def classify_planet_raw (mass radius temp : PyVal) :
    Except Unit String :=
  match classifyMassRaw mass radius, classifyTempRaw temp with
  | .error e, _ => .error e
  | _, .error e => .error e
  | .ok mc, .ok tc => .ok (mc ++ " | " ++ tc)

-- ### SEPHI calculator (lifesearch_main.py lines 145-261)

/-- L1, surface-mass plausibility (lines 191-197). -/
noncomputable def sephiL1 (pm pr : ℝ) : ℝ :=
  let mu1 := pm ^ (0.27 : ℝ)
  let mu2 := pm ^ (0.5 : ℝ)
  let sigma1 := if mu2 - mu1 ≠ 0 then (mu2 - mu1) / 3 else 0.1
  let sigma1 := if sigma1 = 0 then 0.1 else sigma1
  if pr ≤ mu1 then 1
  else if mu1 < pr ∧ pr < mu2 then Real.exp (-0.5 * ((pr - mu1) / sigma1) ^ 2)
  else 0

/-- L2, escape-velocity normalisation (lines 199-209). -/
noncomputable def sephiL2 (pm pr : ℝ) : ℝ :=
  let earthG : ℝ := 1.0 / 1.0 ^ 2
  let earthVe := Real.sqrt (earthG * 1.0)
  let planetG := pm / pr ^ 2
  let ve := Real.sqrt (planetG * pr)
  let veRelative := if 0 < earthVe then ve / earthVe else 0
  let sigma21 : ℝ := (1.0 - 0.0) / 3
  let sigma22 : ℝ := (8.66 - 1.0) / 3
  let sigma21 := if sigma21 = 0 then 0.1 else sigma21
  let sigma22 := if sigma22 = 0 then 0.1 else sigma22
  if veRelative < 1.0 then Real.exp (-0.5 * ((veRelative - 1.0) / sigma21) ^ 2)
  else Real.exp (-0.5 * ((veRelative - 1.0) / sigma22) ^ 2)

/-- Semi-major axis in AU from Kepler's third law (lines 213-218). -/
noncomputable def semiMajorAxis (sm po : ℝ) : ℝ :=
  let stellarMassKg := sm * 1.989e30
  let orbitalPeriodSeconds := po * 86400
  let aMeters := ((6.67430e-11 * stellarMassKg * orbitalPeriodSeconds ^ 2) /
      (4 * Real.pi ^ 2)) ^ ((1 : ℝ) / 3)
  aMeters * 6.68459e-12

/-- One habitable-zone effective-flux quartic fit in `t_eff_diff = st - 5780`
(lines 220-230 use four instances with different coefficients). -/
noncomputable def seffPoly (s a b c d td : ℝ) : ℝ :=
  s + a * td + b * td ^ 2 + c * td ^ 3 + d * td ^ 4

/-- Recent-Venus boundary distance `d1` (lines 220-222). -/
noncomputable def hzD1 (lum td : ℝ) : ℝ :=
  let sEff := seffPoly 1.766 1.335e-4 3.151e-9 (-3.348e-12) 5.733e-16 td
  if 0 < sEff then Real.sqrt (lum / sEff) * 0.68 else 0

/-- Runaway-greenhouse boundary distance `d2_hz` (lines 223-225). -/
noncomputable def hzD2 (lum td : ℝ) : ℝ :=
  let sEff := seffPoly 1.038 1.246e-4 2.874e-9 (-3.06e-12) 5.279e-16 td
  if 0 < sEff then Real.sqrt (lum / sEff) else 0

/-- Maximum-greenhouse boundary distance `d3_hz` (lines 226-228). -/
noncomputable def hzD3 (lum td : ℝ) : ℝ :=
  let sEff := seffPoly 0.3438 5.894e-5 1.628e-9 (-1.698e-12) 2.92e-16 td
  if 0 < sEff then Real.sqrt (lum / sEff) else 0

/-- Early-Mars boundary distance `d4` (lines 229-231). -/
noncomputable def hzD4 (lum td : ℝ) : ℝ :=
  let sEff := seffPoly 0.3179 5.451e-5 1.526e-9 (-1.598e-12) 2.747e-16 td
  if 0 < sEff then Real.sqrt (lum / sEff) * 1.35 else 0

/-- L3, habitable-zone position (lines 211-238). -/
noncomputable def sephiL3 (sm sr st po : ℝ) : ℝ :=
  let stellarLuminosity := sr ^ 2 * (st / 5778) ^ 4
  let a := semiMajorAxis sm po
  let td := st - 5780
  let d1 := hzD1 stellarLuminosity td
  let d2 := hzD2 stellarLuminosity td
  let d3 := hzD3 stellarLuminosity td
  let d4 := hzD4 stellarLuminosity td
  let sigma31 := if d2 - d1 ≠ 0 then (d2 - d1) / 3 else 0.1
  let sigma32 := if d4 - d3 ≠ 0 then (d4 - d3) / 3 else 0.1
  let sigma31 := if sigma31 = 0 then 0.1 else sigma31
  let sigma32 := if sigma32 = 0 then 0.1 else sigma32
  if d2 ≤ a ∧ a ≤ d3 then 1
  else if a < d2 then
    if a < d1 then 0 else Real.exp (-0.5 * ((a - d2) / sigma31) ^ 2)
  else
    if d4 < a then 0 else Real.exp (-0.5 * ((a - d3) / sigma32) ^ 2)

/-- L4, magnetic-field plausibility (lines 240-257).  `L1` is the already
computed first component (the source branches on `L1 > 0.5`); the guards
`if sa is not None` / `pm is not None` of the source are omitted because they
are vacuously true after the precondition check of `calculate_sephi`. -/
noncomputable def sephiL4 (pm pr sm sa po : ℝ) (pdens : Option ℝ) (L1 : ℝ) : ℝ :=
  let a := semiMajorAxis sm po
  let earthDensityRef : ℝ := 5.51
  let planetDensityActual :=
    match pdens with
    | some d => d
    | none => if 0 < pr then earthDensityRef * (pm / pr ^ 3) else earthDensityRef
  let tGyrNorm := sa / 10.0
  let aLock :=
    if 0 < earthDensityRef then
      sm ^ ((1 : ℝ) / 3) * (planetDensityActual / earthDensityRef) ^ (-((1 : ℝ) / 3)) *
        tGyrNorm ^ ((1 : ℝ) / 6) * 0.06
    else 0
  let isTidallyLocked := a ≤ aLock
  let beta1 := pr
  let quad : ℝ × ℝ × ℝ × ℝ :=
    if 0.5 < L1 then
      (1.0, beta1, beta1, if isTidallyLocked then 0.05 else 1.0)
    else if pr ≤ 5.0 then (0.45, 1.8 * beta1, 4 * beta1, 1.0)
    else if pr ≤ 15.0 then (0.18, 4.8 * beta1, 20 * beta1, 1.0)
    else (0.16, 16 * beta1, 100 * beta1, 1.0)
  let rho0n := quad.1
  let r0n := quad.2.1
  let Fn := quad.2.2.1
  let alphaVal := quad.2.2.2
  let Mn := alphaVal * rho0n ^ (0.5 : ℝ) * r0n ^ ((10 : ℝ) / 3) * Fn ^ ((1 : ℝ) / 3)
  let sigma4 : ℝ := (1.0 - 0.0) / 3
  let sigma4 := if sigma4 = 0 then 0.1 else sigma4
  if 1.0 ≤ Mn then 1 else Real.exp (-0.5 * ((Mn - 1.0) / sigma4) ^ 2)

/-- Model of `calculate_sephi` (lines 145-261) on already-converted inputs.
For the seven core parameters, an input that is `None`, NaN, an empty string
or an unparseable value is modelled as `none`: their conversion loop (lines
168-178) is total and maps all of those to Python `None`.  The density
argument is taken here as numeric-or-`None`; its unguarded line-179
conversion, which raises `ValueError` on an unparseable string, is modelled
by `convertDensity` / `calculate_sephi_raw` below.  The
`planet_name_for_log` argument is dropped (logging only).  The returned
5-tuple is `(SEPHI, L1, L2, L3, L4)` as percentages, or all-`none` when a
core parameter is missing or non-positive. -/
noncomputable def calculate_sephi (pm pr po sm sr st sa pdens : Option ℝ) :
    Option ℝ × Option ℝ × Option ℝ × Option ℝ × Option ℝ :=
  if pm = none ∨ pr = none ∨ po = none ∨ sm = none ∨ sr = none ∨ st = none ∨
      sa = none then
    (none, none, none, none, none)
  else
    let pmv := pm.getD 0
    let prv := pr.getD 0
    let pov := po.getD 0
    let smv := sm.getD 0
    let srv := sr.getD 0
    let stv := st.getD 0
    let sav := sa.getD 0
    if pmv ≤ 0 ∨ prv ≤ 0 ∨ pov ≤ 0 ∨ smv ≤ 0 ∨ srv ≤ 0 ∨ stv ≤ 0 ∨ sav ≤ 0 then
      (none, none, none, none, none)
    else
      let L1 := sephiL1 pmv prv
      let L2 := sephiL2 pmv prv
      let L3 := sephiL3 smv srv stv pov
      let L4 := sephiL4 pmv prv smv sav pov pdens L1
      let sephiVal :=
        if 0 < L1 * L2 * L3 * L4 then (L1 * L2 * L3 * L4) ^ ((1 : ℝ) / 4) else 0
      (some (sephiVal * 100), some (L1 * 100), some (L2 * 100), some (L3 * 100),
       some (L4 * 100))

/-- Model of the density conversion at line 179:
`float(planet_density_val) if planet_density_val is not None and not
pd.isna(planet_density_val) else None`.  It has no `try/except`, so a string
that fails to parse raises `ValueError`, modelled as `Except.error ()`;
`pd.isna` is `False` on strings, so every string is passed to `float`. -/
noncomputable def convertDensity : PyVal → Except Unit (Option ℝ)
  | .pnone => .ok none
  | .pnum x => .ok (some x)
  | .pstr s =>
    match pyFloatOfStr? s with
    | some q => .ok (some ((q : ℝ)))
    | none => .error ()

/-- Model of `calculate_sephi` (lines 145-261) with the density argument as
the raw record value, exposing the uncaught `ValueError` of the line-179
conversion as `Except.error ()`.  The source converts the seven core
parameters first (totally, lines 168-178) and then the density (line 179)
before any sentinel check; since the core conversion cannot raise and has no
effects, performing the density conversion first and then delegating to
`calculate_sephi` is observationally identical. -/
noncomputable def calculate_sephi_raw (pm pr po sm sr st sa : Option ℝ)
    (planet_density_val : PyVal) :
    Except Unit (Option ℝ × Option ℝ × Option ℝ × Option ℝ × Option ℝ) :=
  match convertDensity planet_density_val with
  | .error e => .error e
  | .ok pdens => .ok (calculate_sephi pm pr po sm sr st sa pdens)


-- ### Bounds lemmas

theorem gauss_term_mem (c s : ℝ) :
    0 ≤ Real.exp (-0.5 * (c / s) ^ 2) ∧ Real.exp (-0.5 * (c / s) ^ 2) ≤ 1 := by
  refine ⟨(Real.exp_pos _).le, ?_⟩
  calc Real.exp (-0.5 * (c / s) ^ 2) ≤ Real.exp 0 := by
        apply Real.exp_le_exp.mpr
        nlinarith [sq_nonneg (c / s)]
  _ = 1 := Real.exp_zero

theorem sephiL1_mem (pm pr : ℝ) : 0 ≤ sephiL1 pm pr ∧ sephiL1 pm pr ≤ 1 := by
  unfold sephiL1
  dsimp only
  split_ifs <;> first
    | exact ⟨zero_le_one, le_refl 1⟩
    | exact ⟨le_refl 0, zero_le_one⟩
    | exact gauss_term_mem _ _

theorem sephiL2_mem (pm pr : ℝ) : 0 ≤ sephiL2 pm pr ∧ sephiL2 pm pr ≤ 1 := by
  unfold sephiL2
  dsimp only
  split_ifs <;> exact gauss_term_mem _ _

theorem sephiL3_mem (sm sr st po : ℝ) :
    0 ≤ sephiL3 sm sr st po ∧ sephiL3 sm sr st po ≤ 1 := by
  unfold sephiL3
  dsimp only
  split_ifs <;> first
    | exact ⟨zero_le_one, le_refl 1⟩
    | exact ⟨le_refl 0, zero_le_one⟩
    | exact gauss_term_mem _ _

theorem sephiL4_mem (pm pr sm sa po : ℝ) (pdens : Option ℝ) (L1 : ℝ) :
    0 ≤ sephiL4 pm pr sm sa po pdens L1 ∧ sephiL4 pm pr sm sa po pdens L1 ≤ 1 := by
  unfold sephiL4
  rcases pdens with _ | d <;>
    · dsimp only
      split_ifs <;> first
        | exact ⟨zero_le_one, le_refl 1⟩
        | exact gauss_term_mem _ _

theorem detSizeScore_mem (r : Option ℚ) (cls : String) :
    0 ≤ detSizeScore r cls ∧ detSizeScore r cls ≤ 100 := by
  unfold detSizeScore
  rcases r with _ | r
  · norm_num
  · dsimp only
    split_ifs <;> norm_num

theorem detDensityScore_mem (d : Option ℚ) (cls : String) :
    0 ≤ detDensityScore d cls ∧ detDensityScore d cls ≤ 100 := by
  unfold detDensityScore
  rcases d with _ | d
  · norm_num
  · dsimp only
    split_ifs <;> norm_num

theorem detMassScore_mem (m : Option ℚ) (cls : String) :
    0 ≤ detMassScore m cls ∧ detMassScore m cls ≤ 100 := by
  unfold detMassScore
  rcases m with _ | m
  · norm_num
  · dsimp only
    split_ifs <;> norm_num

theorem detAtmWaterScore_mem (t : Option ℚ) :
    0 ≤ detAtmWaterScore t ∧ detAtmWaterScore t ≤ 100 := by
  unfold detAtmWaterScore
  rcases t with _ | t
  · norm_num
  · dsimp only
    split_ifs <;> norm_num

theorem detHzScore_mem (hz : HZInput) (od lg : Option ℚ) :
    0 ≤ detHzScore hz od lg ∧ detHzScore hz od lg ≤ 100 := by
  unfold detHzScore
  rcases hz with _ | ⟨oi, ci, co, oo, tq⟩
  · rcases od with _ | od <;> rcases lg with _ | lg <;> dsimp only <;>
      first
        | (split_ifs <;> norm_num)
        | norm_num
  · rcases od with _ | od
    · dsimp only
      norm_num
    · rcases oi with _ | oi <;> rcases ci with _ | ci <;>
        rcases co with _ | co <;> rcases oo with _ | oo <;> dsimp only <;>
        first
          | (split_ifs <;> norm_num)
          | norm_num

theorem detStarScore_mem (s : String) :
    0 ≤ detStarScore s ∧ detStarScore s ≤ 100 := by
  unfold detStarScore
  split_ifs <;> norm_num

theorem detAgeScore_mem (a : Option ℚ) :
    0 ≤ detAgeScore a ∧ detAgeScore a ≤ 100 := by
  unfold detAgeScore
  rcases a with _ | a
  · norm_num
  · dsimp only
    split_ifs <;> norm_num

theorem detMetScore_mem (m : Option ℚ) :
    0 ≤ detMetScore m ∧ detMetScore m ≤ 100 := by
  unfold detMetScore
  rcases m with _ | m
  · norm_num
  · dsimp only
    split_ifs <;> norm_num

theorem detEccScore_mem (e : Option ℚ) :
    0 ≤ detEccScore e ∧ detEccScore e ≤ 100 := by
  unfold detEccScore
  rcases e with _ | e
  · norm_num
  · dsimp only
    split_ifs <;> norm_num

-- ### Projection lemmas for the detailed-score dictionary

theorem detailed_size_val (pd : PlanetRecord) (hz : HZInput) (wc : String → Option ℚ) :
    (calculate_detailed_habitability_scores pd hz wc).size.1 =
      detSizeScore pd.pl_rade pd.classification := rfl

theorem detailed_density_val (pd : PlanetRecord) (hz : HZInput) (wc : String → Option ℚ) :
    (calculate_detailed_habitability_scores pd hz wc).density.1 =
      detDensityScore pd.pl_dens pd.classification := rfl

theorem detailed_mass_val (pd : PlanetRecord) (hz : HZInput) (wc : String → Option ℚ) :
    (calculate_detailed_habitability_scores pd hz wc).mass.1 =
      detMassScore pd.pl_masse pd.classification := rfl

theorem detailed_atm_val (pd : PlanetRecord) (hz : HZInput) (wc : String → Option ℚ) :
    (calculate_detailed_habitability_scores pd hz wc).atmosphere.1 =
      detAtmWaterScore pd.pl_eqt := rfl

theorem detailed_water_val (pd : PlanetRecord) (hz : HZInput) (wc : String → Option ℚ) :
    (calculate_detailed_habitability_scores pd hz wc).water.1 =
      detAtmWaterScore pd.pl_eqt := rfl

theorem detailed_hz_val (pd : PlanetRecord) (hz : HZInput) (wc : String → Option ℚ) :
    (calculate_detailed_habitability_scores pd hz wc).habitableZone.1 =
      detHzScore hz pd.pl_orbsmax pd.st_lum := rfl

theorem detailed_star_val (pd : PlanetRecord) (hz : HZInput) (wc : String → Option ℚ) :
    (calculate_detailed_habitability_scores pd hz wc).hostStar.1 =
      detStarScore pd.st_spectype := rfl

theorem detailed_age_val (pd : PlanetRecord) (hz : HZInput) (wc : String → Option ℚ) :
    (calculate_detailed_habitability_scores pd hz wc).systemAge.1 =
      detAgeScore pd.st_age := rfl

theorem detailed_met_val (pd : PlanetRecord) (hz : HZInput) (wc : String → Option ℚ) :
    (calculate_detailed_habitability_scores pd hz wc).metallicity.1 =
      detMetScore pd.st_met := rfl

theorem detailed_ecc_val (pd : PlanetRecord) (hz : HZInput) (wc : String → Option ℚ) :
    (calculate_detailed_habitability_scores pd hz wc).eccentricity.1 =
      detEccScore pd.pl_orbeccen := rfl

-- ### Concrete fixtures used by witnesses

/-- A parameter record with every field missing. -/
def emptyRecord : PlanetRecord :=
  { pl_rade := none, pl_masse := none, pl_dens := none, pl_eqt := none,
    pl_orbsmax := none, st_lum := none, st_age := none, st_met := none,
    pl_orbeccen := none, st_spectype := "", classification := "" }

/-- The all-missing weight map (every `get` falls back to `0.0`). -/
def noWeights : String → Option ℚ := fun _ => none

-- ### Claim C2

/-- Core fail-closed property of `calculate_sephi` on already-converted
inputs: if any one of the seven required parameters is `none` or is not
strictly positive, the all-`none` sentinel 5-tuple is returned, for any
converted density. -/
theorem sephi_fail_closed_core (pm pr po sm sr st sa pdens : Option ℝ)
    (h : (¬ ∃ x, pm = some x ∧ 0 < x) ∨ (¬ ∃ x, pr = some x ∧ 0 < x) ∨
         (¬ ∃ x, po = some x ∧ 0 < x) ∨ (¬ ∃ x, sm = some x ∧ 0 < x) ∨
         (¬ ∃ x, sr = some x ∧ 0 < x) ∨ (¬ ∃ x, st = some x ∧ 0 < x) ∨
         (¬ ∃ x, sa = some x ∧ 0 < x)) :
    calculate_sephi pm pr po sm sr st sa pdens = (none, none, none, none, none) := by
  unfold calculate_sephi
  by_cases hn : pm = none ∨ pr = none ∨ po = none ∨ sm = none ∨ sr = none ∨
      st = none ∨ sa = none
  · rw [if_pos hn]
  · rw [if_neg hn]
    push_neg at hn
    obtain ⟨h1, h2, h3, h4, h5, h6, h7⟩ := hn
    obtain ⟨a1, e1⟩ := Option.ne_none_iff_exists'.mp h1
    obtain ⟨a2, e2⟩ := Option.ne_none_iff_exists'.mp h2
    obtain ⟨a3, e3⟩ := Option.ne_none_iff_exists'.mp h3
    obtain ⟨a4, e4⟩ := Option.ne_none_iff_exists'.mp h4
    obtain ⟨a5, e5⟩ := Option.ne_none_iff_exists'.mp h5
    obtain ⟨a6, e6⟩ := Option.ne_none_iff_exists'.mp h6
    obtain ⟨a7, e7⟩ := Option.ne_none_iff_exists'.mp h7
    subst e1; subst e2; subst e3; subst e4; subst e5; subst e6; subst e7
    push_neg at h
    have hcond : a1 ≤ 0 ∨ a2 ≤ 0 ∨ a3 ≤ 0 ∨ a4 ≤ 0 ∨ a5 ≤ 0 ∨ a6 ≤ 0 ∨
        a7 ≤ 0 := by
      rcases h with h | h | h | h | h | h | h
      · exact Or.inl (h a1 rfl)
      · exact Or.inr (Or.inl (h a2 rfl))
      · exact Or.inr (Or.inr (Or.inl (h a3 rfl)))
      · exact Or.inr (Or.inr (Or.inr (Or.inl (h a4 rfl))))
      · exact Or.inr (Or.inr (Or.inr (Or.inr (Or.inl (h a5 rfl)))))
      · exact Or.inr (Or.inr (Or.inr (Or.inr (Or.inr (Or.inl (h a6 rfl))))))
      · exact Or.inr (Or.inr (Or.inr (Or.inr (Or.inr (Or.inr (h a7 rfl))))))
    dsimp only [Option.getD_some]
    rw [if_pos hcond]

/-- Counterexample to C2 as stated: with the planet mass missing (a failing
core parameter) and the density argument the unparseable string
"not-a-number", `calculate_sephi` raises `ValueError` at the line-179
conversion instead of returning the sentinel 5-tuple. -/
theorem C2_sephi_counterexample :
    calculate_sephi_raw none (some 1) (some 365.25) (some 1) (some 1)
      (some 5778) (some 4.5) (PyVal.pstr "not-a-number") = Except.error () ∧
    calculate_sephi_raw none (some 1) (some 365.25) (some 1) (some 1)
      (some 5778) (some 4.5) (PyVal.pstr "not-a-number") ≠
      Except.ok (none, none, none, none, none) := by
  have h : calculate_sephi_raw none (some 1) (some 365.25) (some 1) (some 1)
      (some 5778) (some 4.5) (PyVal.pstr "not-a-number") = Except.error () := rfl
  exact ⟨h, by rw [h]; simp⟩

/-- C2 (amended): if any one of the seven required SEPHI parameters fails to
parse to a float (modelled: is `none`) or is not strictly positive,
`calculate_sephi` returns the 5-tuple of unavailable sentinels exactly,
regardless of the other six parameters and of any density argument whose own
conversion succeeds (`None`, NaN, a float, or a float-parseable string); an
unparseable-string density instead raises `ValueError` before the sentinel
return (see `C2_sephi_counterexample`). -/
theorem C2_sephi_fail_closed_amended (pm pr po sm sr st sa : Option ℝ)
    (d : PyVal)
    (h : (¬ ∃ x, pm = some x ∧ 0 < x) ∨ (¬ ∃ x, pr = some x ∧ 0 < x) ∨
         (¬ ∃ x, po = some x ∧ 0 < x) ∨ (¬ ∃ x, sm = some x ∧ 0 < x) ∨
         (¬ ∃ x, sr = some x ∧ 0 < x) ∨ (¬ ∃ x, st = some x ∧ 0 < x) ∨
         (¬ ∃ x, sa = some x ∧ 0 < x))
    (hd : ∃ o, convertDensity d = Except.ok o) :
    calculate_sephi_raw pm pr po sm sr st sa d =
      Except.ok (none, none, none, none, none) := by
  obtain ⟨o, ho⟩ := hd
  unfold calculate_sephi_raw
  rw [ho]
  dsimp only
  rw [sephi_fail_closed_core pm pr po sm sr st sa o h]

/-- Witness for the amended C2 at a concrete input: planet mass unparseable
(`none`), all other parameters Earth-like, density the parseable string
"5.51". -/
theorem C2_sephi_fail_closed_amended_witness :
    (¬ ∃ x, (none : Option ℝ) = some x ∧ 0 < x) ∧
    (∃ o, convertDensity (PyVal.pstr "5.51") = Except.ok o) ∧
    calculate_sephi_raw none (some 1) (some 365.25) (some 1) (some 1)
      (some 5778) (some 4.5) (PyVal.pstr "5.51") =
      Except.ok (none, none, none, none, none) :=
  ⟨by simp, ⟨_, rfl⟩,
   C2_sephi_fail_closed_amended none (some 1) (some 365.25) (some 1) (some 1)
     (some 5778) (some 4.5) (PyVal.pstr "5.51") (Or.inl (by simp)) ⟨_, rfl⟩⟩

-- ### Claim C5

/-- C5: in `calculate_detailed_habitability_scores`, the Atmosphere-Potential
and Liquid-Water-Potential scores are both 90 for equilibrium temperature in
(273.15, 373.15] K, both 50 for temperature in [200, 273.15] K or
(373.15, 450] K, both 20 for any other parseable temperature, and both 0 when
the temperature is absent. -/
theorem C5_atmosphere_water (pd : PlanetRecord) (hz : HZInput)
    (wc : String → Option ℚ) :
    (pd.pl_eqt = none →
      (calculate_detailed_habitability_scores pd hz wc).atmosphere.1 = 0 ∧
      (calculate_detailed_habitability_scores pd hz wc).water.1 = 0) ∧
    (∀ t, pd.pl_eqt = some t →
      (273.15 < t ∧ t ≤ 373.15 →
        (calculate_detailed_habitability_scores pd hz wc).atmosphere.1 = 90 ∧
        (calculate_detailed_habitability_scores pd hz wc).water.1 = 90) ∧
      ((200 ≤ t ∧ t ≤ 273.15) ∨ (373.15 < t ∧ t ≤ 450) →
        (calculate_detailed_habitability_scores pd hz wc).atmosphere.1 = 50 ∧
        (calculate_detailed_habitability_scores pd hz wc).water.1 = 50) ∧
      (t < 200 ∨ 450 < t →
        (calculate_detailed_habitability_scores pd hz wc).atmosphere.1 = 20 ∧
        (calculate_detailed_habitability_scores pd hz wc).water.1 = 20)) := by
  simp only [detailed_atm_val, detailed_water_val]
  constructor
  · intro h
    rw [h]
    exact ⟨rfl, rfl⟩
  · intro t ht
    rw [ht]
    unfold detAtmWaterScore
    dsimp only
    refine ⟨?_, ?_, ?_⟩
    · intro h
      rw [if_pos h]
      exact ⟨rfl, rfl⟩
    · intro h
      have hne : ¬ (273.15 < t ∧ t ≤ 373.15) := by
        rcases h with ⟨h1, h2⟩ | ⟨h1, h2⟩
        · intro hc; linarith [hc.1]
        · intro hc; linarith [hc.2]
      rw [if_neg hne, if_pos h]
      exact ⟨rfl, rfl⟩
    · intro h
      have hne1 : ¬ (273.15 < t ∧ t ≤ 373.15) := by
        rcases h with h | h
        · intro hc; linarith [hc.1]
        · intro hc; linarith [hc.2]
      have hne2 : ¬ ((200 ≤ t ∧ t ≤ 273.15) ∨ (373.15 < t ∧ t ≤ 450)) := by
        rcases h with h | h
        · rintro (⟨h1, h2⟩ | ⟨h1, h2⟩) <;> linarith
        · rintro (⟨h1, h2⟩ | ⟨h1, h2⟩) <;> linarith
      rw [if_neg hne1, if_neg hne2]
      exact ⟨rfl, rfl⟩

/-- Witness for C5 at concrete temperatures 300 K (90-band), 250 K (50-band),
500 K (20-band). -/
theorem C5_atmosphere_water_witness :
    ((273.15:ℚ) < 300 ∧ (300:ℚ) ≤ 373.15) ∧
    (calculate_detailed_habitability_scores
      { emptyRecord with pl_eqt := some 300 } none noWeights).atmosphere.1 = 90 ∧
    (calculate_detailed_habitability_scores
      { emptyRecord with pl_eqt := some 250 } none noWeights).water.1 = 50 ∧
    (calculate_detailed_habitability_scores
      { emptyRecord with pl_eqt := some 500 } none noWeights).atmosphere.1 = 20 := by
  refine ⟨by norm_num, ?_, ?_, ?_⟩
  · exact (((C5_atmosphere_water _ none noWeights).2 300 rfl).1 (by norm_num)).1
  · exact (((C5_atmosphere_water _ none noWeights).2 250 rfl).2.1
      (Or.inl (by norm_num))).2
  · exact (((C5_atmosphere_water _ none noWeights).2 500 rfl).2.2
      (Or.inr (by norm_num))).1

-- ### Claim C9

/-- C9: the Orbital-Eccentricity score of
`calculate_detailed_habitability_scores` is non-increasing in the (parseable)
eccentricity, and takes the band values 95 (e ≤ 0.1), 70 (0.1 < e ≤ 0.3),
40 (0.3 < e ≤ 0.5) and 10 (0.5 < e). -/
theorem C9_eccentricity_monotone (pd : PlanetRecord) (hz : HZInput)
    (wc : String → Option ℚ) (e1 e2 : ℚ) (h12 : e1 ≤ e2) :
    ((calculate_detailed_habitability_scores { pd with pl_orbeccen := some e2 }
        hz wc).eccentricity.1 ≤
      (calculate_detailed_habitability_scores { pd with pl_orbeccen := some e1 }
        hz wc).eccentricity.1) ∧
    (∀ e : ℚ,
      (e ≤ 0.1 →
        (calculate_detailed_habitability_scores { pd with pl_orbeccen := some e }
          hz wc).eccentricity.1 = 95) ∧
      (0.1 < e ∧ e ≤ 0.3 →
        (calculate_detailed_habitability_scores { pd with pl_orbeccen := some e }
          hz wc).eccentricity.1 = 70) ∧
      (0.3 < e ∧ e ≤ 0.5 →
        (calculate_detailed_habitability_scores { pd with pl_orbeccen := some e }
          hz wc).eccentricity.1 = 40) ∧
      (0.5 < e →
        (calculate_detailed_habitability_scores { pd with pl_orbeccen := some e }
          hz wc).eccentricity.1 = 10)) := by
  simp only [detailed_ecc_val]
  constructor
  · unfold detEccScore
    dsimp only
    split_ifs <;> linarith
  · intro e
    unfold detEccScore
    dsimp only
    refine ⟨?_, ?_, ?_, ?_⟩
    · intro h
      rw [if_pos h]
    · rintro ⟨h1, h2⟩
      rw [if_neg (not_le.mpr h1), if_pos h2]
    · rintro ⟨h1, h2⟩
      rw [if_neg (by linarith : ¬ e ≤ 0.1), if_neg (not_le.mpr h1), if_pos h2]
    · intro h
      rw [if_neg (by linarith : ¬ e ≤ 0.1), if_neg (by linarith : ¬ e ≤ 0.3),
        if_neg (not_le.mpr h)]

/-- Witness for C9: eccentricities 0.05 ≤ 0.4 give scores 40 ≤ 95. -/
theorem C9_eccentricity_monotone_witness :
    ((0.05:ℚ) ≤ 0.4) ∧
    (calculate_detailed_habitability_scores
      { emptyRecord with pl_orbeccen := some 0.4 } none noWeights).eccentricity.1 ≤
    (calculate_detailed_habitability_scores
      { emptyRecord with pl_orbeccen := some 0.05 } none noWeights).eccentricity.1 :=
  ⟨by norm_num,
   (C9_eccentricity_monotone emptyRecord none noWeights 0.05 0.4 (by norm_num)).1⟩

-- ### Claim C4

/-- C4: `calculate_sph_score` is a function of the equilibrium temperature
only.  For temperature t in [273.15, 323.15] K the returned score is the
linear ramp `70 + (1 - |t - 298.15| / 25) * 30` (rounded to two decimals),
lies in [70, 100] and attains 100 exactly at the midpoint 298.15 K; for t in
[250, 273.15) K or (323.15, 373.15] K the score is exactly 40; for any other
parseable t the score is exactly 10; for an absent or unparseable temperature
the score is exactly 0. -/
theorem C4_sph_piecewise (pd : PlanetRecord) (w : String → Option ℚ) :
    (pd.pl_eqt = none → (calculate_sph_score pd w).1 = 0) ∧
    (∀ t, pd.pl_eqt = some t →
      (273.15 ≤ t ∧ t ≤ 323.15 →
        (calculate_sph_score pd w).1 = round2 (70 + (1 - |t - 298.15| / 25) * 30) ∧
        70 ≤ (calculate_sph_score pd w).1 ∧ (calculate_sph_score pd w).1 ≤ 100) ∧
      (t = 298.15 → (calculate_sph_score pd w).1 = 100) ∧
      ((250 ≤ t ∧ t < 273.15) ∨ (323.15 < t ∧ t ≤ 373.15) →
        (calculate_sph_score pd w).1 = 40) ∧
      ((t < 250 ∨ 373.15 < t) → (calculate_sph_score pd w).1 = 10)) := by
  constructor
  · intro h
    unfold calculate_sph_score
    rw [h]
  · intro t ht
    unfold calculate_sph_score
    rw [ht]
    dsimp only
    refine ⟨?_, ?_, ?_, ?_⟩
    · intro h
      rw [if_pos h]
      have hmid : ((273.15:ℚ) + 323.15) / 2 = 298.15 := by norm_num
      have habsle : |t - 298.15| ≤ 25 := by
        rw [abs_le]
        constructor <;> linarith [h.1, h.2]
      have habs0 : (0:ℚ) ≤ |t - 298.15| := abs_nonneg _
      have hscore : (70:ℚ) ≤ 70 + (1 - |t - ((273.15:ℚ) + 323.15) / 2| /
          (((273.15:ℚ) + 323.15) / 2 - 273.15)) * 30 := by
        rw [hmid]
        have : ((298.15:ℚ) - 273.15) = 25 := by norm_num
        norm_num
        linarith
      have hscore100 : 70 + (1 - |t - ((273.15:ℚ) + 323.15) / 2| /
          (((273.15:ℚ) + 323.15) / 2 - 273.15)) * 30 ≤ 100 := by
        rw [hmid]
        norm_num
        linarith
      have hclamp : max 0 (min (70 + (1 - |t - ((273.15:ℚ) + 323.15) / 2| /
          (((273.15:ℚ) + 323.15) / 2 - 273.15)) * 30) 100) =
          70 + (1 - |t - 298.15| / 25) * 30 := by
        rw [hmid]
        rw [min_eq_left (by rw [hmid] at hscore100; norm_num at hscore100 ⊢; linarith),
          max_eq_right]
        · norm_num
        · rw [hmid] at hscore
          norm_num at hscore ⊢
          linarith
      refine ⟨by rw [hclamp], ?_, ?_⟩
      · rw [hclamp]
        have h70 : (70:ℚ) ≤ 70 + (1 - |t - 298.15| / 25) * 30 := by
          rw [hmid] at hscore
          norm_num at hscore ⊢
          linarith
        have := round2_mono h70
        rwa [show (70:ℚ) = ((70:ℤ):ℚ) by norm_num, round2_intCast] at this
      · rw [hclamp]
        apply round2_le_100
        rw [hmid] at hscore100
        norm_num at hscore100 ⊢
        linarith
    · intro h
      subst h
      rw [if_pos (by norm_num)]
      have : max 0 (min (70 + (1 - |(298.15:ℚ) - ((273.15:ℚ) + 323.15) / 2| /
          (((273.15:ℚ) + 323.15) / 2 - 273.15)) * 30) 100) = 100 := by
        norm_num
      rw [this, show (100:ℚ) = ((100:ℤ):ℚ) by norm_num, round2_intCast]
    · intro h
      have hne : ¬ (273.15 ≤ t ∧ t ≤ 323.15) := by
        rcases h with ⟨h1, h2⟩ | ⟨h1, h2⟩
        · intro hc; linarith [hc.1]
        · intro hc; linarith [hc.2]
      rw [if_neg hne, if_pos h]
      norm_num
      rw [show (40:ℚ) = ((40:ℤ):ℚ) by norm_num, round2_intCast]
    · intro h
      have hne1 : ¬ (273.15 ≤ t ∧ t ≤ 323.15) := by
        rcases h with h | h
        · intro hc; linarith [hc.1]
        · intro hc; linarith [hc.2]
      have hne2 : ¬ ((250 ≤ t ∧ t < 273.15) ∨ (323.15 < t ∧ t ≤ 373.15)) := by
        rcases h with h | h
        · rintro (⟨h1, h2⟩ | ⟨h1, h2⟩) <;> linarith
        · rintro (⟨h1, h2⟩ | ⟨h1, h2⟩) <;> linarith
      rw [if_neg hne1, if_neg hne2]
      norm_num
      rw [show (10:ℚ) = ((10:ℤ):ℚ) by norm_num, round2_intCast]

/-- Witness for C4: temperature 288 K gives a score in [70, 100], 400 K gives
exactly 10, an absent temperature gives exactly 0. -/
theorem C4_sph_piecewise_witness :
    ((273.15:ℚ) ≤ 288 ∧ (288:ℚ) ≤ 323.15) ∧
    (70 ≤ (calculate_sph_score { emptyRecord with pl_eqt := some 288 }
        noWeights).1 ∧
      (calculate_sph_score { emptyRecord with pl_eqt := some 288 }
        noWeights).1 ≤ 100) ∧
    (calculate_sph_score { emptyRecord with pl_eqt := some 400 } noWeights).1 = 10 ∧
    (calculate_sph_score emptyRecord noWeights).1 = 0 := by
  refine ⟨by norm_num, ⟨?_, ?_⟩, ?_, ?_⟩
  · exact (((C4_sph_piecewise _ noWeights).2 288 rfl).1 (by norm_num)).2.1
  · exact (((C4_sph_piecewise _ noWeights).2 288 rfl).1 (by norm_num)).2.2
  · exact ((C4_sph_piecewise _ noWeights).2 400 rfl).2.2.2 (Or.inr (by norm_num))
  · exact (C4_sph_piecewise emptyRecord noWeights).1 rfl

-- ### Claim C10

theorem round2_clamp_comm (x : ℚ) :
    round2 (max 0 (min x 100)) = max 0 (min (round2 x) 100) := by
  rcases le_total x 0 with h0 | h0
  · have hmin : min x 100 = x := min_eq_left (by linarith)
    have hmax : max (0:ℚ) x = 0 := max_eq_left h0
    rw [hmin, hmax]
    have hr : round2 x ≤ 0 := by
      have := round2_mono h0
      rwa [show (0:ℚ) = ((0:ℤ):ℚ) by norm_num, round2_intCast] at this
    rw [min_eq_left (by linarith), max_eq_left hr,
      show (0:ℚ) = ((0:ℤ):ℚ) by norm_num, round2_intCast]
  · rcases le_total x 100 with h1 | h1
    · rw [min_eq_left h1, max_eq_right h0, min_eq_left (round2_le_100 h1),
        max_eq_right (round2_nonneg h0)]
    · have hr : (100:ℚ) ≤ round2 x := by
        have := round2_mono h1
        rwa [show (100:ℚ) = ((100:ℤ):ℚ) by norm_num, round2_intCast] at this
      rw [min_eq_right h1, max_eq_right (by norm_num : (0:ℚ) ≤ 100),
        min_eq_right hr, max_eq_right (by norm_num : (0:ℚ) ≤ 100),
        show (100:ℚ) = ((100:ℤ):ℚ) by norm_num, round2_intCast]

/-- C10: ESI and PHI do not depend on the planet parameter record.  For any
two records and a fixed weight map, `calculate_esi_score` returns the same
(score, color) pair, equal to `round(((Size + Density + HabitableZone
weights) / 3) * 100, 2)` with its color, and `calculate_phi_score` likewise
returns the same pair, equal to the clamped `round((sum of the four phi
weights / 4) * 400, 2)` with its color. -/
theorem C10_esi_phi_record_independent (pd1 pd2 : PlanetRecord)
    (hw pw : String → Option ℚ) :
    calculate_esi_score pd1 hw = calculate_esi_score pd2 hw ∧
    (calculate_esi_score pd1 hw).1 =
      round2 (((wget hw "Size" + wget hw "Density" + wget hw "Habitable Zone") / 3)
        * 100) ∧
    (calculate_esi_score pd1 hw).2 =
      get_color_for_percentage
        (some (((wget hw "Size" + wget hw "Density" + wget hw "Habitable Zone") / 3)
          * 100)) true ∧
    calculate_phi_score pd1 pw = calculate_phi_score pd2 pw ∧
    (calculate_phi_score pd1 pw).1 =
      max 0 (min (round2 (((wget pw "Solid Surface" + wget pw "Stable Energy" +
        wget pw "Life Compounds" + wget pw "Stable Orbit") / 4) * 400)) 100) ∧
    (calculate_phi_score pd1 pw).2 =
      get_color_for_percentage
        (some (max 0 (min (((wget pw "Solid Surface" + wget pw "Stable Energy" +
          wget pw "Life Compounds" + wget pw "Stable Orbit") / 4) * 400) 100)))
        true := by
  refine ⟨rfl, ?_, ?_, rfl, ?_, ?_⟩
  · unfold calculate_esi_score
    rw [if_neg (by simp)]
    dsimp only [List.sum_cons, List.sum_nil, List.length_cons, List.length_nil]
    norm_num
    ring_nf
  · unfold calculate_esi_score
    rw [if_neg (by simp)]
    dsimp only [List.sum_cons, List.sum_nil, List.length_cons, List.length_nil]
    norm_num
    ring_nf
  · unfold calculate_phi_score
    rw [if_neg (by simp)]
    dsimp only [List.sum_cons, List.sum_nil, List.length_cons, List.length_nil]
    rw [← round2_clamp_comm]
    norm_num
    ring_nf
  · unfold calculate_phi_score
    rw [if_neg (by simp)]
    dsimp only [List.sum_cons, List.sum_nil, List.length_cons, List.length_nil]
    norm_num
    ring_nf

-- ### Claims C7 and C8

/-- C7: `classify_planet` assigns the mass class by the ordered threshold
table in Earth masses on the (possibly radius-estimated) mass, with Unknown
for an absent, non-positive or ≥ 5000 mass; and the two concrete instances
from the spec hold. -/
theorem C7_mass_class_table :
    (∀ mass radius : Option ℝ, ∀ m : ℝ, estimateMass mass radius = some m →
      (m ≤ 0 → massClassStr mass radius = "Unknown Mass Class") ∧
      (0 < m ∧ m < 0.00001 → massClassStr mass radius = "Asteroidan") ∧
      (0.00001 ≤ m ∧ m < 0.1 → massClassStr mass radius = "Mercurian") ∧
      (0.1 ≤ m ∧ m < 0.5 → massClassStr mass radius = "Subterran") ∧
      (0.5 ≤ m ∧ m < 2 → massClassStr mass radius = "Terran") ∧
      (2 ≤ m ∧ m < 10 → massClassStr mass radius = "Superterran") ∧
      (10 ≤ m ∧ m < 50 → massClassStr mass radius = "Neptunian") ∧
      (50 ≤ m ∧ m < 5000 → massClassStr mass radius = "Jovian") ∧
      (5000 ≤ m → massClassStr mass radius = "Unknown Mass Class")) ∧
    (∀ mass radius : Option ℝ, estimateMass mass radius = none →
      massClassStr mass radius = "Unknown Mass Class") ∧
    classify_planet (some 1) (some 1) (some 288) =
      "Terran | Mesoplanet (Temperate 2 - Optimal for Earth Life)" ∧
    massClassStr (some 317) (some 11) = "Jovian" := by
  refine ⟨?_, ?_, ?_, ?_⟩
  · intro mass radius m hm
    unfold massClassStr
    rw [hm]
    dsimp only
    refine ⟨?_, ?_, ?_, ?_, ?_, ?_, ?_, ?_, ?_⟩
    · intro h
      rw [if_pos h]
    · rintro ⟨h0, h1⟩
      rw [if_neg (not_le.mpr h0), if_pos h1]
    · rintro ⟨h0, h1⟩
      rw [if_neg (by norm_num at h0 ⊢; linarith : ¬ m ≤ 0),
        if_neg (not_lt.mpr h0), if_pos h1]
    · rintro ⟨h0, h1⟩
      rw [if_neg (by norm_num at h0 ⊢; linarith : ¬ m ≤ 0),
        if_neg (by norm_num at h0 ⊢; linarith : ¬ m < 0.00001),
        if_neg (not_lt.mpr h0), if_pos h1]
    · rintro ⟨h0, h1⟩
      rw [if_neg (by norm_num at h0 ⊢; linarith : ¬ m ≤ 0),
        if_neg (by norm_num at h0 ⊢; linarith : ¬ m < 0.00001),
        if_neg (by norm_num at h0 ⊢; linarith : ¬ m < 0.1),
        if_neg (not_lt.mpr h0), if_pos h1]
    · rintro ⟨h0, h1⟩
      rw [if_neg (by norm_num at h0 ⊢; linarith : ¬ m ≤ 0),
        if_neg (by norm_num at h0 ⊢; linarith : ¬ m < 0.00001),
        if_neg (by norm_num at h0 ⊢; linarith : ¬ m < 0.1),
        if_neg (by norm_num at h0 ⊢; linarith : ¬ m < 0.5),
        if_neg (not_lt.mpr h0), if_pos h1]
    · rintro ⟨h0, h1⟩
      rw [if_neg (by norm_num at h0 ⊢; linarith : ¬ m ≤ 0),
        if_neg (by norm_num at h0 ⊢; linarith : ¬ m < 0.00001),
        if_neg (by norm_num at h0 ⊢; linarith : ¬ m < 0.1),
        if_neg (by norm_num at h0 ⊢; linarith : ¬ m < 0.5),
        if_neg (by norm_num at h0 ⊢; linarith : ¬ m < 2),
        if_neg (not_lt.mpr h0), if_pos h1]
    · rintro ⟨h0, h1⟩
      rw [if_neg (by norm_num at h0 ⊢; linarith : ¬ m ≤ 0),
        if_neg (by norm_num at h0 ⊢; linarith : ¬ m < 0.00001),
        if_neg (by norm_num at h0 ⊢; linarith : ¬ m < 0.1),
        if_neg (by norm_num at h0 ⊢; linarith : ¬ m < 0.5),
        if_neg (by norm_num at h0 ⊢; linarith : ¬ m < 2),
        if_neg (by norm_num at h0 ⊢; linarith : ¬ m < 10),
        if_neg (not_lt.mpr h0), if_pos h1]
    · intro h0
      rw [if_neg (by norm_num at h0 ⊢; linarith : ¬ m ≤ 0),
        if_neg (by norm_num at h0 ⊢; linarith : ¬ m < 0.00001),
        if_neg (by norm_num at h0 ⊢; linarith : ¬ m < 0.1),
        if_neg (by norm_num at h0 ⊢; linarith : ¬ m < 0.5),
        if_neg (by norm_num at h0 ⊢; linarith : ¬ m < 2),
        if_neg (by norm_num at h0 ⊢; linarith : ¬ m < 10),
        if_neg (by norm_num at h0 ⊢; linarith : ¬ m < 50),
        if_neg (by norm_num at h0 ⊢; linarith : ¬ m < 5000)]
  · intro mass radius h
    unfold massClassStr
    rw [h]
  · unfold classify_planet massClassStr tempClassStr estimateMass
    norm_num
    rfl
  · unfold massClassStr estimateMass
    norm_num

/-- Witness for C7: masses 1 and 0.05 land in the Terran and Mercurian bands. -/
theorem C7_mass_class_table_witness :
    ((0.5:ℝ) ≤ 1 ∧ (1:ℝ) < 2) ∧
    massClassStr (some 1) (some 1) = "Terran" ∧
    massClassStr (some 0.05) (some 1) = "Mercurian" := by
  refine ⟨by norm_num, ?_, ?_⟩
  · exact (C7_mass_class_table.1 (some 1) (some 1) 1 rfl).2.2.2.2.1 (by norm_num)
  · exact (C7_mass_class_table.1 (some 0.05) (some 1) 0.05 rfl).2.2.1 (by norm_num)

theorem massClassStr_vocab (mass radius : Option ℝ) :
    massClassStr mass radius ∈
      ["Unknown Mass Class", "Asteroidan", "Mercurian", "Subterran",
       "Terran", "Superterran", "Neptunian", "Jovian"] := by
  unfold massClassStr
  cases estimateMass mass radius with
  | none => simp
  | some m =>
    dsimp only
    split_ifs <;> simp

theorem tempClassStr_vocab (temp : Option ℝ) :
    tempClassStr temp ∈
      ["Unknown Temperature Class", "Hypopsychroplanet (Very Cold)",
       "Psychroplanet (Cold)", "Mesoplanet (Temperate 1)",
       "Mesoplanet (Temperate 2 - Optimal for Earth Life)",
       "Thermoplanet (Warm)", "Hyperthermoplanet (Hot)"] := by
  unfold tempClassStr
  cases temp with
  | none => simp
  | some t =>
    dsimp only
    split_ifs <;> simp

/-- Counterexample to C8 as stated: `classify_planet` does have a failure
mode on the string-valued inputs the parameter record permits.  A string
mass reaches `mass_earth <= 0` (line 118) and a string temperature reaches
`temp_k < 0` (line 130), raising `TypeError` instead of returning a string. -/
theorem C8_classify_counterexample :
    classify_planet_raw (PyVal.pstr "1.0") (PyVal.pnum 1) (PyVal.pnum 288) =
      Except.error () ∧
    classify_planet_raw (PyVal.pnum 1) (PyVal.pnum 1) (PyVal.pstr "288") =
      Except.error () :=
  ⟨rfl, rfl⟩

/-- C8 (amended): on every triple of numeric/`None`/NaN inputs,
`classify_planet` returns (never raises) the string
`massClass ++ " | " ++ tempClass` with the tokens drawn from the fixed
vocabularies; but a string-valued mass, a string-valued radius when the mass
is absent, or a string-valued temperature makes it raise `TypeError` at a
bare comparison (lines 110/118/130) instead of returning. -/
theorem C8_classify_amended :
    (∀ mass radius temp : Option ℝ,
      classify_planet_raw (toPyVal mass) (toPyVal radius) (toPyVal temp) =
        Except.ok (classify_planet mass radius temp)) ∧
    (∀ mass radius temp : Option ℝ, ∃ mc tc : String,
      mc ∈ ["Unknown Mass Class", "Asteroidan", "Mercurian", "Subterran",
            "Terran", "Superterran", "Neptunian", "Jovian"] ∧
      tc ∈ ["Unknown Temperature Class", "Hypopsychroplanet (Very Cold)",
            "Psychroplanet (Cold)", "Mesoplanet (Temperate 1)",
            "Mesoplanet (Temperate 2 - Optimal for Earth Life)",
            "Thermoplanet (Warm)", "Hyperthermoplanet (Hot)"] ∧
      classify_planet mass radius temp = mc ++ " | " ++ tc) ∧
    (∀ s : String, ∀ radius temp : PyVal,
      classify_planet_raw (PyVal.pstr s) radius temp = Except.error ()) ∧
    (∀ s : String, ∀ temp : PyVal,
      classify_planet_raw PyVal.pnone (PyVal.pstr s) temp = Except.error ()) ∧
    (∀ mass radius : PyVal, ∀ s : String,
      classify_planet_raw mass radius (PyVal.pstr s) = Except.error ()) := by
  refine ⟨?_, ?_, ?_, ?_, ?_⟩
  · intro mass radius temp
    have hmr : ∀ (x : ℝ) (rv : Option ℝ),
        massClassStr (some x) rv = massClassStr (some x) none := by
      intro x rv
      unfold massClassStr estimateMass
      cases rv <;> rfl
    cases mass with
    | none =>
      cases radius with
      | none => cases temp <;> rfl
      | some rv => cases temp <;> rfl
    | some mv =>
      cases radius with
      | none => cases temp <;> rfl
      | some rv =>
        cases temp <;>
          simp [classify_planet_raw, classifyMassRaw, classifyTempRaw,
            toPyVal, classify_planet, hmr]
  · intro mass radius temp
    exact ⟨massClassStr mass radius, tempClassStr temp,
      massClassStr_vocab mass radius, tempClassStr_vocab temp, rfl⟩
  · intro s radius temp
    cases h : classifyTempRaw temp <;>
      simp [classify_planet_raw, classifyMassRaw, h]
  · intro s temp
    cases h : classifyTempRaw temp <;>
      simp [classify_planet_raw, classifyMassRaw, h]
  · intro mass radius s
    cases h : classifyMassRaw mass radius <;>
      simp [classify_planet_raw, classifyTempRaw, h]

-- ### Claim C6

/-- C6: the Habitable-Zone-Position score of
`calculate_detailed_habitability_scores` is 95/65/20 against measured
boundaries when the 5-tuple and the orbit distance are available, 80/25
against the luminosity-derived zone `sqrt(L/1.1) .. sqrt(L/0.53)` (with
`L = 10 ** st_lum` the linear luminosity) when no boundary tuple is given but
orbit distance and stellar luminosity are known, and 10 when neither set of
inputs is available. -/
theorem C6_habitable_zone_position (pd : PlanetRecord) (hz : HZInput)
    (wc : String → Option ℚ) :
    (∀ oi ci co oo tq od,
      hz = some (some oi, some ci, some co, some oo, tq) →
      pd.pl_orbsmax = some od →
      ((ci ≤ od ∧ od ≤ co →
        (calculate_detailed_habitability_scores pd hz wc).habitableZone.1 = 95) ∧
       (¬ (ci ≤ od ∧ od ≤ co) → (oi ≤ od ∧ od < ci) ∨ (co < od ∧ od ≤ oo) →
        (calculate_detailed_habitability_scores pd hz wc).habitableZone.1 = 65) ∧
       (¬ (ci ≤ od ∧ od ≤ co) → ¬ ((oi ≤ od ∧ od < ci) ∨ (co < od ∧ od ≤ oo)) →
        (calculate_detailed_habitability_scores pd hz wc).habitableZone.1 = 20))) ∧
    (∀ od lg, hz = none → pd.pl_orbsmax = some od → pd.st_lum = some lg →
      (calculate_detailed_habitability_scores pd hz wc).habitableZone.1 =
        if Real.sqrt ((10 : ℝ) ^ ((lg : ℝ)) / 1.1) ≤ (od : ℝ) ∧
            (od : ℝ) ≤ Real.sqrt ((10 : ℝ) ^ ((lg : ℝ)) / 0.53) then 80
        else 25) ∧
    (pd.pl_orbsmax = none ∨ (hz = none ∧ pd.st_lum = none) →
      (calculate_detailed_habitability_scores pd hz wc).habitableZone.1 = 10) := by
  simp only [detailed_hz_val]
  refine ⟨?_, ?_, ?_⟩
  · intro oi ci co oo tq od hhz hod
    rw [hhz, hod]
    unfold detHzScore
    dsimp only
    refine ⟨?_, ?_, ?_⟩
    · intro h
      rw [if_pos h]
    · intro h1 h2
      rw [if_neg h1, if_pos h2]
    · intro h1 h2
      rw [if_neg h1, if_neg h2]
  · intro od lg hhz hod hlg
    rw [hhz, hod, hlg]
    unfold detHzScore
    dsimp only
  · intro h
    rcases h with hod | ⟨hhz, hlg⟩
    · rw [hod]
      rcases hz with _ | ⟨oi, ci, co, oo, tq⟩
      · cases pd.st_lum <;> rfl
      · rfl
    · rw [hhz, hlg]
      cases pd.pl_orbsmax <;> rfl

/-- Witness for C6: measured boundaries with the orbit inside the
conservative zone give 95; the luminosity fallback with L = 1 and an orbit of
1 AU gives 80; nothing available gives 10. -/
theorem C6_habitable_zone_position_witness :
    ((0.95:ℚ) ≤ 1 ∧ (1:ℚ) ≤ 1.3) ∧
    (calculate_detailed_habitability_scores
      { emptyRecord with pl_orbsmax := some 1 }
      (some (some 0.7, some 0.95, some 1.3, some 1.7, none))
      noWeights).habitableZone.1 = 95 ∧
    (calculate_detailed_habitability_scores
      { emptyRecord with pl_orbsmax := some 1, st_lum := some 0 }
      none noWeights).habitableZone.1 = 80 ∧
    (calculate_detailed_habitability_scores emptyRecord none
      noWeights).habitableZone.1 = 10 := by
  refine ⟨by norm_num, ?_, ?_, ?_⟩
  · exact (((C6_habitable_zone_position _ _ noWeights).1 0.7 0.95 1.3 1.7 none 1
      rfl rfl).1 (by norm_num))
  · have h := (C6_habitable_zone_position
      { emptyRecord with pl_orbsmax := some 1, st_lum := some 0 } none
      noWeights).2.1 1 0 rfl rfl rfl
    rw [h]
    rw [if_pos]
    constructor
    · have : ((10:ℝ) ^ (((0:ℚ) : ℝ)) / 1.1) ≤ 1 := by
        rw [show (((0:ℚ):ℝ)) = (0:ℝ) by norm_num, Real.rpow_zero]
        norm_num
      calc Real.sqrt ((10:ℝ) ^ (((0:ℚ):ℝ)) / 1.1) ≤ Real.sqrt 1 :=
            Real.sqrt_le_sqrt this
      _ = 1 := Real.sqrt_one
      _ ≤ ((1:ℚ) : ℝ) := by norm_num
    · have h2 : (1:ℝ) ≤ Real.sqrt ((10:ℝ) ^ (((0:ℚ):ℝ)) / 0.53) := by
        apply (Real.le_sqrt (by norm_num) (by positivity)).mpr
        rw [show (((0:ℚ):ℝ)) = (0:ℝ) by norm_num, Real.rpow_zero]
        norm_num
      calc ((1:ℚ) : ℝ) = (1:ℝ) := by norm_num
      _ ≤ _ := h2
  · exact (C6_habitable_zone_position emptyRecord none noWeights).2.2
      (Or.inl rfl)

-- ### Claim C1

theorem wget_mem_unit {w : String → Option ℚ}
    (hw : ∀ k v, w k = some v → 0 ≤ v ∧ v ≤ 1) (k : String) :
    0 ≤ wget w k ∧ wget w k ≤ 1 := by
  unfold wget
  cases hval : w k with
  | none => norm_num
  | some v => exact hw k v hval

theorem sephi_product_aux {L1 L2 L3 L4 : ℝ}
    (h1 : 0 ≤ L1 ∧ L1 ≤ 1) (h2 : 0 ≤ L2 ∧ L2 ≤ 1)
    (h3 : 0 ≤ L3 ∧ L3 ≤ 1) (h4 : 0 ≤ L4 ∧ L4 ≤ 1) :
    0 ≤ L1 * L2 * L3 * L4 ∧ L1 * L2 * L3 * L4 ≤ 1 := by
  constructor
  · exact mul_nonneg (mul_nonneg (mul_nonneg h1.1 h2.1) h3.1) h4.1
  · nlinarith [mul_nonneg h1.1 h2.1, mul_nonneg (mul_nonneg h1.1 h2.1) h3.1]

/-- C1: with habitability weights in [0, 1] and non-negative phi weights,
every score returned by `calculate_esi_score`, `calculate_sph_score`,
`calculate_phi_score` and `calculate_detailed_habitability_scores` lies in
[0, 100], and `calculate_sephi` either returns the all-`none` unavailable
sentinel or five scores each in [0, 100] (the score types `ℚ`/`ℝ` contain no
NaN, so no returned score is NaN, negative, or greater than 100). -/
theorem C1_scores_bounded (pd : PlanetRecord) (hz : HZInput)
    (hw pw wc : String → Option ℚ) (pm pr po sm sr st sa pdens : Option ℝ)
    (hhw : ∀ k v, hw k = some v → 0 ≤ v ∧ v ≤ 1)
    (_hpw : ∀ k v, pw k = some v → 0 ≤ v) :
    (0 ≤ (calculate_esi_score pd hw).1 ∧ (calculate_esi_score pd hw).1 ≤ 100) ∧
    (0 ≤ (calculate_sph_score pd hw).1 ∧ (calculate_sph_score pd hw).1 ≤ 100) ∧
    (0 ≤ (calculate_phi_score pd pw).1 ∧ (calculate_phi_score pd pw).1 ≤ 100) ∧
    (0 ≤ (calculate_detailed_habitability_scores pd hz wc).size.1 ∧
      (calculate_detailed_habitability_scores pd hz wc).size.1 ≤ 100) ∧
    (0 ≤ (calculate_detailed_habitability_scores pd hz wc).density.1 ∧
      (calculate_detailed_habitability_scores pd hz wc).density.1 ≤ 100) ∧
    (0 ≤ (calculate_detailed_habitability_scores pd hz wc).mass.1 ∧
      (calculate_detailed_habitability_scores pd hz wc).mass.1 ≤ 100) ∧
    (0 ≤ (calculate_detailed_habitability_scores pd hz wc).atmosphere.1 ∧
      (calculate_detailed_habitability_scores pd hz wc).atmosphere.1 ≤ 100) ∧
    (0 ≤ (calculate_detailed_habitability_scores pd hz wc).water.1 ∧
      (calculate_detailed_habitability_scores pd hz wc).water.1 ≤ 100) ∧
    (0 ≤ (calculate_detailed_habitability_scores pd hz wc).habitableZone.1 ∧
      (calculate_detailed_habitability_scores pd hz wc).habitableZone.1 ≤ 100) ∧
    (0 ≤ (calculate_detailed_habitability_scores pd hz wc).hostStar.1 ∧
      (calculate_detailed_habitability_scores pd hz wc).hostStar.1 ≤ 100) ∧
    (0 ≤ (calculate_detailed_habitability_scores pd hz wc).systemAge.1 ∧
      (calculate_detailed_habitability_scores pd hz wc).systemAge.1 ≤ 100) ∧
    (0 ≤ (calculate_detailed_habitability_scores pd hz wc).metallicity.1 ∧
      (calculate_detailed_habitability_scores pd hz wc).metallicity.1 ≤ 100) ∧
    (0 ≤ (calculate_detailed_habitability_scores pd hz wc).eccentricity.1 ∧
      (calculate_detailed_habitability_scores pd hz wc).eccentricity.1 ≤ 100) ∧
    (calculate_sephi pm pr po sm sr st sa pdens = (none, none, none, none, none) ∨
     ∃ s l1 l2 l3 l4,
       calculate_sephi pm pr po sm sr st sa pdens =
         (some s, some l1, some l2, some l3, some l4) ∧
       (0 ≤ s ∧ s ≤ 100) ∧ (0 ≤ l1 ∧ l1 ≤ 100) ∧ (0 ≤ l2 ∧ l2 ≤ 100) ∧
       (0 ≤ l3 ∧ l3 ≤ 100) ∧ (0 ≤ l4 ∧ l4 ≤ 100)) := by
  refine ⟨?_, ?_, ?_,
    by rw [detailed_size_val]; exact detSizeScore_mem _ _,
    by rw [detailed_density_val]; exact detDensityScore_mem _ _,
    by rw [detailed_mass_val]; exact detMassScore_mem _ _,
    by rw [detailed_atm_val]; exact detAtmWaterScore_mem _,
    by rw [detailed_water_val]; exact detAtmWaterScore_mem _,
    by rw [detailed_hz_val]; exact detHzScore_mem _ _ _,
    by rw [detailed_star_val]; exact detStarScore_mem _,
    by rw [detailed_age_val]; exact detAgeScore_mem _,
    by rw [detailed_met_val]; exact detMetScore_mem _,
    by rw [detailed_ecc_val]; exact detEccScore_mem _,
    ?_⟩
  · -- ESI
    obtain ⟨hS0, hS1⟩ := wget_mem_unit hhw "Size"
    obtain ⟨hD0, hD1⟩ := wget_mem_unit hhw "Density"
    obtain ⟨hH0, hH1⟩ := wget_mem_unit hhw "Habitable Zone"
    unfold calculate_esi_score
    rw [if_neg (by simp)]
    dsimp only [List.sum_cons, List.sum_nil, List.length_cons, List.length_nil]
    norm_num
    constructor
    · apply round2_nonneg
      have : (0:ℚ) ≤ wget hw "Size" + wget hw "Density" + wget hw "Habitable Zone" := by
        linarith
      linarith [mul_nonneg (by linarith : (0:ℚ) ≤
        (wget hw "Size" + (wget hw "Density" + wget hw "Habitable Zone")) / 3)
        (by norm_num : (0:ℚ) ≤ 100)]
    · apply round2_le_100
      nlinarith
  · -- SPH
    unfold calculate_sph_score
    cases heq : pd.pl_eqt with
    | none => norm_num
    | some t =>
      dsimp only
      constructor
      · apply round2_nonneg
        exact le_max_left _ _
      · apply round2_le_100
        exact max_le (by norm_num) (min_le_right _ _)
  · -- PHI
    unfold calculate_phi_score
    rw [if_neg (by simp)]
    dsimp only
    constructor
    · apply round2_nonneg
      exact le_max_left _ _
    · apply round2_le_100
      exact max_le (by norm_num) (min_le_right _ _)
  · -- SEPHI
    unfold calculate_sephi
    by_cases hn : pm = none ∨ pr = none ∨ po = none ∨ sm = none ∨ sr = none ∨
        st = none ∨ sa = none
    · rw [if_pos hn]
      exact Or.inl rfl
    · rw [if_neg hn]
      by_cases hp : pm.getD 0 ≤ 0 ∨ pr.getD 0 ≤ 0 ∨ po.getD 0 ≤ 0 ∨
          sm.getD 0 ≤ 0 ∨ sr.getD 0 ≤ 0 ∨ st.getD 0 ≤ 0 ∨ sa.getD 0 ≤ 0
      · rw [if_pos hp]
        exact Or.inl rfl
      · rw [if_neg hp]
        dsimp only
        refine Or.inr ⟨_, _, _, _, _, rfl, ?_, ?_, ?_, ?_, ?_⟩
        · have h1 := sephiL1_mem (pm.getD 0) (pr.getD 0)
          have h2 := sephiL2_mem (pm.getD 0) (pr.getD 0)
          have h3 := sephiL3_mem (sm.getD 0) (sr.getD 0) (st.getD 0) (po.getD 0)
          have h4 := sephiL4_mem (pm.getD 0) (pr.getD 0) (sm.getD 0) (sa.getD 0)
            (po.getD 0) pdens (sephiL1 (pm.getD 0) (pr.getD 0))
          obtain ⟨hq0, hq1⟩ := sephi_product_aux h1 h2 h3 h4
          split_ifs with hpos
          · constructor
            · positivity
            · have : (sephiL1 (pm.getD 0) (pr.getD 0) * sephiL2 (pm.getD 0) (pr.getD 0) *
                  sephiL3 (sm.getD 0) (sr.getD 0) (st.getD 0) (po.getD 0) *
                  sephiL4 (pm.getD 0) (pr.getD 0) (sm.getD 0) (sa.getD 0)
                    (po.getD 0) pdens (sephiL1 (pm.getD 0) (pr.getD 0))) ^
                  ((1:ℝ)/4) ≤ 1 :=
                Real.rpow_le_one hq0 hq1 (by norm_num)
              nlinarith
          · norm_num
        · have h := sephiL1_mem (pm.getD 0) (pr.getD 0)
          constructor
          · nlinarith [h.1]
          · nlinarith [h.2]
        · have h := sephiL2_mem (pm.getD 0) (pr.getD 0)
          constructor
          · nlinarith [h.1]
          · nlinarith [h.2]
        · have h := sephiL3_mem (sm.getD 0) (sr.getD 0) (st.getD 0) (po.getD 0)
          constructor
          · nlinarith [h.1]
          · nlinarith [h.2]
        · have h := sephiL4_mem (pm.getD 0) (pr.getD 0) (sm.getD 0) (sa.getD 0)
            (po.getD 0) pdens (sephiL1 (pm.getD 0) (pr.getD 0))
          constructor
          · nlinarith [h.1]
          · nlinarith [h.2]

/-- Witness for C1 at the all-missing record and weight maps. -/
theorem C1_scores_bounded_witness :
    (∀ k v, noWeights k = some v → 0 ≤ v ∧ v ≤ 1) ∧
    (0 ≤ (calculate_esi_score emptyRecord noWeights).1 ∧
      (calculate_esi_score emptyRecord noWeights).1 ≤ 100) ∧
    (0 ≤ (calculate_sph_score emptyRecord noWeights).1 ∧
      (calculate_sph_score emptyRecord noWeights).1 ≤ 100) :=
  ⟨fun k v h => by simp [noWeights] at h,
   (C1_scores_bounded emptyRecord none noWeights noWeights noWeights
      none none none none none none none none
      (fun k v h => by simp [noWeights] at h)
      (fun k v h => by simp [noWeights] at h)).1,
   (C1_scores_bounded emptyRecord none noWeights noWeights noWeights
      none none none none none none none none
      (fun k v h => by simp [noWeights] at h)
      (fun k v h => by simp [noWeights] at h)).2.1⟩

-- ### Claim C3: SEPHI on Earth-identical inputs

theorem sma_earth_lb : (0.999 : ℝ) ≤ semiMajorAxis 1 365.25 := by
  unfold semiMajorAxis
  dsimp only
  have hpi : Real.pi < 3.141593 := Real.pi_lt_d6
  have hpi0 : (0:ℝ) < Real.pi := Real.pi_pos
  have hden : (4:ℝ) * Real.pi ^ 2 ≤ 4 * 3.141593 ^ 2 := by nlinarith
  have hden0 : (0:ℝ) < 4 * Real.pi ^ 2 := by positivity
  have hX : ((1.4945e11:ℝ)) ^ (3:ℕ) ≤
      (6.67430e-11 * ((1:ℝ) * 1.989e30) * (((365.25:ℝ) * 86400) ^ 2)) /
        (4 * Real.pi ^ 2) := by
    calc ((1.4945e11:ℝ)) ^ (3:ℕ)
        ≤ (6.67430e-11 * ((1:ℝ) * 1.989e30) * (((365.25:ℝ) * 86400) ^ 2)) /
            (4 * 3.141593 ^ 2) := by norm_num
      _ ≤ (6.67430e-11 * ((1:ℝ) * 1.989e30) * (((365.25:ℝ) * 86400) ^ 2)) /
            (4 * Real.pi ^ 2) :=
          div_le_div_of_nonneg_left (by norm_num) hden0 hden
  have h3 : ((1.4945e11:ℝ) ^ (3:ℕ)) ^ ((1:ℝ)/3) ≤
      ((6.67430e-11 * ((1:ℝ) * 1.989e30) * (((365.25:ℝ) * 86400) ^ 2)) /
        (4 * Real.pi ^ 2)) ^ ((1:ℝ)/3) :=
    Real.rpow_le_rpow (by positivity) hX (by norm_num)
  have hc : ((1.4945e11:ℝ) ^ (3:ℕ)) ^ ((1:ℝ)/3) = 1.4945e11 := by
    rw [← Real.rpow_natCast (1.4945e11:ℝ) 3,
      ← Real.rpow_mul (by norm_num : (0:ℝ) ≤ 1.4945e11),
      show (((3:ℕ):ℝ)) * ((1:ℝ)/3) = 1 by norm_num, Real.rpow_one]
  rw [hc] at h3
  have hmul := mul_le_mul_of_nonneg_right h3 (by norm_num : (0:ℝ) ≤ 6.68459e-12)
  calc (0.999:ℝ) ≤ 1.4945e11 * 6.68459e-12 := by norm_num
    _ ≤ _ := hmul

theorem sma_earth_ub : semiMajorAxis 1 365.25 ≤ 1.001 := by
  unfold semiMajorAxis
  dsimp only
  have hpi : (3.141592:ℝ) < Real.pi := Real.pi_gt_d6
  have hpi0 : (0:ℝ) < Real.pi := Real.pi_pos
  have hden : (4:ℝ) * 3.141592 ^ 2 ≤ 4 * Real.pi ^ 2 := by nlinarith
  have hden0 : (0:ℝ) < 4 * 3.141592 ^ 2 := by norm_num
  have hX : (6.67430e-11 * ((1:ℝ) * 1.989e30) * (((365.25:ℝ) * 86400) ^ 2)) /
        (4 * Real.pi ^ 2) ≤ ((1.4970e11:ℝ)) ^ (3:ℕ) := by
    calc (6.67430e-11 * ((1:ℝ) * 1.989e30) * (((365.25:ℝ) * 86400) ^ 2)) /
          (4 * Real.pi ^ 2)
        ≤ (6.67430e-11 * ((1:ℝ) * 1.989e30) * (((365.25:ℝ) * 86400) ^ 2)) /
            (4 * 3.141592 ^ 2) :=
          div_le_div_of_nonneg_left (by norm_num) hden0 hden
      _ ≤ ((1.4970e11:ℝ)) ^ (3:ℕ) := by norm_num
  have h3 : ((6.67430e-11 * ((1:ℝ) * 1.989e30) * (((365.25:ℝ) * 86400) ^ 2)) /
        (4 * Real.pi ^ 2)) ^ ((1:ℝ)/3) ≤
      ((1.4970e11:ℝ) ^ (3:ℕ)) ^ ((1:ℝ)/3) :=
    Real.rpow_le_rpow (by positivity) hX (by norm_num)
  have hc : ((1.4970e11:ℝ) ^ (3:ℕ)) ^ ((1:ℝ)/3) = 1.4970e11 := by
    rw [← Real.rpow_natCast (1.4970e11:ℝ) 3,
      ← Real.rpow_mul (by norm_num : (0:ℝ) ≤ 1.4970e11),
      show (((3:ℕ):ℝ)) * ((1:ℝ)/3) = 1 by norm_num, Real.rpow_one]
  rw [hc] at h3
  have hmul := mul_le_mul_of_nonneg_right h3 (by norm_num : (0:ℝ) ≤ 6.68459e-12)
  calc _ ≤ (1.4970e11:ℝ) * 6.68459e-12 := hmul
    _ ≤ 1.001 := by norm_num

theorem hzD2_earth_le : hzD2 1 (-2) ≤ 0.999 := by
  unfold hzD2 seffPoly
  dsimp only
  rw [if_pos (by norm_num)]
  have h1 : (1:ℝ) / (1.038 + 1.246e-4 * (-2) + 2.874e-9 * (-2) ^ 2 +
      -3.06e-12 * (-2) ^ 3 + 5.279e-16 * (-2) ^ 4) ≤ 0.998001 := by norm_num
  calc Real.sqrt ((1:ℝ) / (1.038 + 1.246e-4 * (-2) + 2.874e-9 * (-2) ^ 2 +
        -3.06e-12 * (-2) ^ 3 + 5.279e-16 * (-2) ^ 4))
      ≤ Real.sqrt 0.998001 := Real.sqrt_le_sqrt h1
    _ = 0.999 := by
        rw [show (0.998001:ℝ) = 0.999 ^ 2 by norm_num]
        exact Real.sqrt_sq (by norm_num)

theorem hzD3_earth_ge : (1.001 : ℝ) ≤ hzD3 1 (-2) := by
  unfold hzD3 seffPoly
  dsimp only
  rw [if_pos (by norm_num)]
  apply (Real.le_sqrt (by norm_num) (by norm_num)).mpr
  norm_num

theorem sephiL1_earth : sephiL1 1 1 = 1 := by
  unfold sephiL1
  dsimp only
  rw [Real.one_rpow, Real.one_rpow, if_pos le_rfl]

theorem sephiL2_earth : sephiL2 1 1 = 1 := by
  unfold sephiL2
  dsimp only
  norm_num [Real.sqrt_one, Real.exp_zero]

theorem sephiL3_earth : sephiL3 1 1 5778 365.25 = 1 := by
  unfold sephiL3
  dsimp only
  have hl : ((1:ℝ) ^ 2 * ((5778:ℝ) / 5778) ^ 4) = 1 := by norm_num
  have ht : ((5778:ℝ) - 5780) = -2 := by norm_num
  rw [hl, ht]
  rw [if_pos ⟨le_trans hzD2_earth_le sma_earth_lb,
    le_trans sma_earth_ub hzD3_earth_ge⟩]

theorem sephiL4_earth : sephiL4 1 1 1 4.5 365.25 (some 5.51) 1 = 1 := by
  unfold sephiL4
  dsimp only
  have hlockRHS : ((1:ℝ)) ^ ((1:ℝ)/3) * ((5.51:ℝ) / 5.51) ^ (-((1:ℝ)/3)) *
      ((4.5:ℝ) / 10.0) ^ ((1:ℝ)/6) * 0.06 ≤ 0.06 := by
    rw [Real.one_rpow, show ((5.51:ℝ) / 5.51) = 1 by norm_num, Real.one_rpow]
    have h045 : ((4.5:ℝ) / 10.0) ^ ((1:ℝ)/6) ≤ 1 :=
      Real.rpow_le_one (by norm_num) (by norm_num) (by norm_num)
    nlinarith [Real.rpow_nonneg (by norm_num : (0:ℝ) ≤ (4.5:ℝ) / 10.0) ((1:ℝ)/6)]
  have hnl : ¬ (semiMajorAxis 1 365.25 ≤ ((1:ℝ)) ^ ((1:ℝ)/3) *
      ((5.51:ℝ) / 5.51) ^ (-((1:ℝ)/3)) * ((4.5:ℝ) / 10.0) ^ ((1:ℝ)/6) * 0.06) :=
    not_le.mpr (lt_of_le_of_lt hlockRHS
      (lt_of_lt_of_le (by norm_num) sma_earth_lb))
  rw [if_pos (by norm_num : (0:ℝ) < 5.51), if_neg hnl,
    if_pos (by norm_num : (0.5:ℝ) < 1)]
  dsimp only
  norm_num [Real.one_rpow]

/-- C3: `calculate_sephi` on Earth-identical inputs (mass 1, radius 1, period
365.25 d, stellar mass 1, stellar radius 1, T_eff 5778 K, age 4.5 Gyr,
density 5.51 g/cm³) returns a SEPHI main score in [70, 100] (it is exactly
100 in the real-arithmetic model). -/
theorem C3_sephi_earth_high :
    ∃ s, (calculate_sephi (some 1) (some 1) (some 365.25) (some 1) (some 1)
      (some 5778) (some 4.5) (some 5.51)).1 = some s ∧ 70 ≤ s ∧ s ≤ 100 := by
  refine ⟨100, ?_, by norm_num, by norm_num⟩
  unfold calculate_sephi
  rw [if_neg (by simp)]
  dsimp only [Option.getD_some]
  rw [if_neg (by norm_num)]
  dsimp only
  rw [sephiL1_earth, sephiL2_earth, sephiL3_earth, sephiL4_earth]
  norm_num [Real.one_rpow]
